import Mathlib

/-!
Verification of the `hub` and `proxy` packages of the remoteRotator
repository, by way of a shallow embedding in Lean 4.

The embedding follows the Go source closely:

* `rotator.Status`, `rotator.Info`, `rotator.Request` and `hub.Event`
  become Lean structures with the same fields (Go `int` becomes `Int`,
  Go zero values become structure defaults).
* The Hub's client sets (`map[*TCPClient]bool`, `map[*WsClient]bool`)
  are modelled as duplicate-free lists of client handles; Go's map
  `delete` and insert are modelled by `List.erase` and a guarded append.
* Lock acquisition is modelled by per-operation action traces, so that
  the concurrency contract (every mutation of a client set happens
  between `Lock` and `Unlock`) becomes a decidable property of the
  trace an operation emits.
* `ListenTCP`'s setup code is modelled as a statement list executed by a
  small interpreter with Go `defer`/panic semantics (deferred calls run
  in LIFO order at return or while panicking).
* The Proxy is modelled by a structure holding its cached fields; its
  receive loop's "heading" branch becomes a pure state transformer that
  also returns, in order, the event-handler invocations it spawns.
-/

set_option autoImplicit false

namespace RemoteRotator

/-- rotator.Status: the snapshot broadcast to clients
(fields as used in hub.go and proxy Status()). -/
structure Status where
  name : String := ""
  azimuth : Int := 0
  azPreset : Int := 0
  azimuthOverlap : Bool := false
  elevation : Int := 0
  elPreset : Int := 0
deriving DecidableEq, Repr

/-- rotator.Info: the static/current descriptor served by the info
endpoint and cached by the Proxy. -/
structure Info where
  name : String := ""
  hasAzimuth : Bool := false
  hasElevation : Bool := false
  azimuthMin : Int := 0
  azimuthMax : Int := 0
  azimuthStop : Int := 0
  azimuthOverlap : Bool := false
  elevationMin : Int := 0
  elevationMax : Int := 0
  azimuth : Int := 0
  azPreset : Int := 0
  elevation : Int := 0
  elPreset : Int := 0
deriving DecidableEq, Repr

/-- rotator.Request: the command union written by the Proxy's command
methods. Absent fields keep their Go zero value. -/
structure Request where
  hasAzimuth : Bool := false
  azimuth : Int := 0
  hasElevation : Bool := false
  elevation : Int := 0
  stopAzimuth : Bool := false
  stopElevation : Bool := false
  stop : Bool := false
deriving DecidableEq, Repr

/-- hub.Event: wire event decoded by the Proxy's receive loop. -/
structure Event where
  name : String := ""
  status : Status := {}
deriving DecidableEq, Repr

/-! ### TCP push encoding (hub.go, BroadcastToTCPClients)

The wire data is `fmt.Sprintf("+0%.3d+0%.3d\r\n", s.Azimuth, s.Elevation)`.
Go's `%.3d` prints the decimal representation of the integer, left-padded
with zeros to at least 3 digits; a minus sign precedes the padded digits
for negative values. -/

/-- Decimal digits of `n`, zero-padded on the left to at least `prec`
digits (the digit part of Go's `%.prec d`). -/
def goPadNat (prec : Nat) (n : Nat) : String :=
  let s := toString n
  String.mk (List.replicate (prec - s.length) '0') ++ s

/-- Go's `%.prec d` for a (signed) integer. -/
def goPadInt (prec : Nat) (n : Int) : String :=
  if n < 0 then "-" ++ goPadNat prec n.natAbs else goPadNat prec n.toNat

/-- The exact string `BroadcastToTCPClients` writes to every TCP client
for a given status (hub.go line 197). -/
def tcpPushData (s : Status) : String :=
  "+0" ++ goPadInt 3 s.azimuth ++ "+0" ++ goPadInt 3 s.elevation ++ "\r\n"

/-- Spec-side rendering of "the zero-padded 3-digit" decimal form of a
number below 1000: exactly its three decimal digits, high to low.
(Written from the spec's words, for comparison with `tcpPushData`.) -/
def specPad3 (n : Nat) : String :=
  String.mk [Nat.digitChar (n / 100), Nat.digitChar (n / 10 % 10), Nat.digitChar (n % 10)]

/-! ### The Proxy (proxy package)

The Proxy caches the remote rotator's fields; `conn` is kept abstract
(commands take the connection's write function as an argument), and the
presence of a registered event handler is tracked as a Bool. -/

/-- The Proxy's fields (proxy.go struct Proxy). `hasEventHandler` models
`eventHandler != nil`. -/
structure Proxy where
  host : String := ""
  port : Int := 0
  hasEventHandler : Bool := false
  name : String := ""
  azimuthMin : Int := 0
  azimuthMax : Int := 0
  azimuthStop : Int := 0
  azimuthOverlap : Bool := false
  elevationMin : Int := 0
  elevationMax : Int := 0
  hasAzimuth : Bool := false
  hasElevation : Bool := false
  azimuth : Int := 0
  azPreset : Int := 0
  elevation : Int := 0
  elPreset : Int := 0
deriving DecidableEq, Repr

/-- The Proxy value `New` builds before applying options:
`&Proxy{name: "rotatorProxy"}`; every other field is at its zero value. -/
def freshProxy : Proxy := { name := "rotatorProxy" }

/-- New's functional options: `Host`, `Port` and `EventHandler` set the
corresponding fields on the fresh Proxy. -/
def applyOpts (host : String) (port : Int) (hasHandler : Bool) : Proxy :=
  { freshProxy with host := host, port := port, hasEventHandler := hasHandler }

/-- Outcome of `getInfo`, once the HTTP response has decoded to a list of
Info descriptors. `panic` is the Go runtime panic raised by an
out-of-range index. -/
inductive GetInfoResult where
  | ok (p : Proxy)
  | err (msg : String)
  | panic
deriving DecidableEq, Repr

/-- getInfo (proxy side), applied to the decoded descriptor list.  The
source checks `len(infos) > 1` and then reads `infos[0]` field by field;
on an empty list that index panics.  Note the source copies every field
of `infos[0]` EXCEPT `AzimuthOverlap`. -/
def getInfo (r : Proxy) (infos : List Info) : GetInfoResult :=
  if infos.length > 1 then
    GetInfoResult.err ("expected information of 1 rotator, but got " ++ toString infos.length)
  else
    match infos with
    | [] => GetInfoResult.panic
    | i :: _ =>
      GetInfoResult.ok { r with
        name := i.name
        hasAzimuth := i.hasAzimuth
        hasElevation := i.hasElevation
        azimuthMin := i.azimuthMin
        azimuthMax := i.azimuthMax
        azimuthStop := i.azimuthStop
        elevationMin := i.elevationMin
        elevationMax := i.elevationMax
        azimuth := i.azimuth
        azPreset := i.azPreset
        elevation := i.elevation
        elPreset := i.elPreset }

/-- getInfo's result as an Option, for stating equalities. -/
def getInfoOk (r : Proxy) (infos : List Info) : Option Proxy :=
  match getInfo r infos with
  | GetInfoResult.ok p => some p
  | _ => none

/-- How far `New` gets before (and whether it reaches) the WebSocket
dial: it returns the `getInfo` error without dialing, propagates the
panic, or proceeds to dial with the seeded Proxy. -/
inductive NewOutcome where
  | panic
  | errNoDial (msg : String)
  | dial (p : Proxy)
deriving DecidableEq, Repr

/-- Whether a `NewOutcome` is an error return with no dial attempted. -/
def NewOutcome.isErrNoDial : NewOutcome → Bool
  | NewOutcome.errNoDial _ => true
  | _ => false

/-- The prefix of `New` relevant to construction: apply options, run
getInfo, return its error before any dial; only on success reach
`wsDialer.Dial`. -/
def newUpToDial (r0 : Proxy) (infos : List Info) : NewOutcome :=
  match getInfo r0 infos with
  | GetInfoResult.err m => NewOutcome.errNoDial m
  | GetInfoResult.panic => NewOutcome.panic
  | GetInfoResult.ok p => NewOutcome.dial p

/-! Read accessors and command methods (proxy.go). The RLock/RUnlock
pairs around the reads are no-ops in this sequential embedding. -/

def Proxy.Name (r : Proxy) : String := r.name

def Proxy.HasAzimuth (r : Proxy) : Bool := r.hasAzimuth

def Proxy.HasElevation (r : Proxy) : Bool := r.hasElevation

def Proxy.Azimuth (r : Proxy) : Int := r.azimuth

def Proxy.AzPreset (r : Proxy) : Int := r.azPreset

def Proxy.Elevation (r : Proxy) : Int := r.elevation

def Proxy.ElPreset (r : Proxy) : Int := r.elPreset

/-- proxy Status(): snapshot of the cached fields. -/
def Proxy.Status (r : Proxy) : Status :=
  { name := r.name
    azimuth := r.azimuth
    azPreset := r.azPreset
    azimuthOverlap := r.azimuthOverlap
    elevation := r.elevation
    elPreset := r.elPreset }

/-- proxy Info(): descriptor built from the cached fields. -/
def Proxy.Info (r : Proxy) : Info :=
  { name := r.name
    hasAzimuth := r.hasAzimuth
    hasElevation := r.hasElevation
    azimuthMin := r.azimuthMin
    azimuthMax := r.azimuthMax
    azimuthStop := r.azimuthStop
    azimuthOverlap := r.azimuthOverlap
    elevationMin := r.elevationMin
    elevationMax := r.elevationMax
    azimuth := r.azimuth
    azPreset := r.azPreset
    elevation := r.elevation
    elPreset := r.elPreset }

/-- Outcome of `conn.WriteJSON(req)`: supplied by the environment as a
function from the request written to the write result. -/
def WriteFn : Type := Request → Except String Unit

/-- proxy SetAzimuth: builds `Request{HasAzimuth: true, Azimuth: az}`
and returns the write outcome; the Proxy itself is not touched. -/
def Proxy.SetAzimuth (r : Proxy) (w : WriteFn) (az : Int) : Proxy × Except String Unit :=
  (r, w { hasAzimuth := true, azimuth := az })

/-- proxy SetElevation: builds `Request{HasElevation: true, Elevation: el}`. -/
def Proxy.SetElevation (r : Proxy) (w : WriteFn) (el : Int) : Proxy × Except String Unit :=
  (r, w { hasElevation := true, elevation := el })

/-- proxy StopAzimuth: builds `Request{StopAzimuth: true}`. -/
def Proxy.StopAzimuth (r : Proxy) (w : WriteFn) : Proxy × Except String Unit :=
  (r, w { stopAzimuth := true })

/-- proxy StopElevation: builds `Request{StopElevation: true}`. -/
def Proxy.StopElevation (r : Proxy) (w : WriteFn) : Proxy × Except String Unit :=
  (r, w { stopElevation := true })

/-- proxy Stop: builds `Request{Stop: true}`. -/
def Proxy.Stop (r : Proxy) (w : WriteFn) : Proxy × Except String Unit :=
  (r, w { stop := true })

/-! ### The Proxy's receive loop: the "heading" branch

`rotator.Azimuth` / `rotator.Elevation` are the event tags the handler
is invoked with.  The branch compares the four cached fields one after
the other against the incoming status, updating each changed field and
(when a handler is registered) spawning one handler invocation per
changed field; we record the invocations in program order. -/

/-- The rotator.Event values used by the receive loop. -/
inductive RotatorEvent where
  | azimuth
  | elevation
deriving DecidableEq, Repr

/-- The `case "heading"` body (proxy.go, inside New's receive loop):
four sequential compare/update/notify blocks, threaded in source
order (azimuth, azPreset, elevation, elPreset). -/
def handleHeading (r : Proxy) (s : Status) : Proxy × List (RotatorEvent × Status) :=
  let p1 :=
    if r.azimuth ≠ s.azimuth then
      ({ r with azimuth := s.azimuth },
       if r.hasEventHandler then [(RotatorEvent.azimuth, s)] else [])
    else (r, [])
  let p2 :=
    if p1.1.azPreset ≠ s.azPreset then
      ({ p1.1 with azPreset := s.azPreset },
       p1.2 ++ (if p1.1.hasEventHandler then [(RotatorEvent.azimuth, s)] else []))
    else p1
  let p3 :=
    if p2.1.elevation ≠ s.elevation then
      ({ p2.1 with elevation := s.elevation },
       p2.2 ++ (if p2.1.hasEventHandler then [(RotatorEvent.elevation, s)] else []))
    else p2
  let p4 :=
    if p3.1.elPreset ≠ s.elPreset then
      ({ p3.1 with elPreset := s.elPreset },
       p3.2 ++ (if p3.1.hasEventHandler then [(RotatorEvent.elevation, s)] else []))
    else p3
  p4

/-- The receive loop's dispatch on the decoded event's name: "add" and
"remove" fall through without effect, "heading" runs the branch above,
anything else matches no case. -/
def handleEvent (r : Proxy) (e : Event) : Proxy × List (RotatorEvent × Status) :=
  if e.name = "add" then (r, [])
  else if e.name = "remove" then (r, [])
  else if e.name = "heading" then handleHeading r e.status
  else (r, [])

/-! ### The Hub's client sets (hub.go)

A `map[*TCPClient]bool` whose values are always `true` is a set of
pointers; we model it as a duplicate-free list of client handles.
`delete(m, c)` becomes `List.erase`, `m[c] = true` becomes a guarded
append (a present key is merely overwritten).  A TCP client handle
carries the behaviour of its socket: whether writes to it fail. -/

/-- A connected TCP client: its identity and whether writes to its
socket fail. -/
structure TCPClient where
  id : Nat
  failing : Bool
deriving DecidableEq, Repr

/-- Go map insert `m[c] = true` on a set of keys: a present key keeps
its single entry, an absent key is added. -/
def goMapInsert {α : Type} [DecidableEq α] (set : List α) (c : α) : List α :=
  if c ∈ set then set else set ++ [c]

/-- AddTCPClient's effect on the TCP client set (hub.go lines 54-65):
if the client is already in the map, delete it first; then insert. -/
def addTCPClientSet (set : List TCPClient) (c : TCPClient) : List TCPClient :=
  let set1 := if c ∈ set then set.erase c else set
  goMapInsert set1 c

/-- AddWsClient's effect on the WebSocket client set (hub.go lines
81-90): the same delete-then-insert dance (clients are identified by
their handle, so we reuse `TCPClient` as the handle type). -/
def addWsClientSet (set : List TCPClient) (c : TCPClient) : List TCPClient :=
  let set1 := if c ∈ set then set.erase c else set
  goMapInsert set1 c

/-- BroadcastToTCPClients' loop over the client set (hub.go lines
194-204): write to each client; on a write error, close the client and
delete it from the set (deleting the key currently ranged over).
Returns the set after the pass, the clients whose write succeeded
(in iteration order), and the clients closed by the pass. -/
def broadcastTCPPass : List TCPClient → List TCPClient × List TCPClient × List TCPClient
  | [] => ([], [], [])
  | c :: rest =>
    let (rem, delivered, closed) := broadcastTCPPass rest
    if c.failing then (rem, delivered, c :: closed)
    else (c :: rem, c :: delivered, closed)

/-! ### Lock discipline of the Hub's operations (hub.go)

Each exported Hub operation is rendered as the trace of primitive
actions it performs, in source order; `hub.Lock()` and the deferred
`hub.Unlock()` appear as `lock`/`unlock` actions.  The concurrency
contract of the spec is then the decidable trace property that every
client-set mutation happens at positive lock depth. -/

/-- Primitive actions a Hub operation performs (clients as ids). -/
inductive HubAction where
  | lock
  | unlock
  | insertTCP (id : Nat)
  | deleteTCP (id : Nat)
  | insertWs (id : Nat)
  | deleteWs (id : Nat)
  | tcpWrite (id : Nat)
  | wsWrite (id : Nat)
  | jsonMarshal
  | closeClient (id : Nat)
  | logMsg
  | startListen (id : Nat)
deriving DecidableEq, Repr

/-- AddTCPClient (hub.go 54-65): Lock; deferred Unlock; conditional
delete; insert; log; `go client.listen(...)`. -/
def addTCPClientTrace (tcpSet : List Nat) (c : Nat) : List HubAction :=
  [HubAction.lock]
    ++ (if c ∈ tcpSet then [HubAction.deleteTCP c] else [])
    ++ [HubAction.insertTCP c, HubAction.logMsg, HubAction.startListen c]
    ++ [HubAction.unlock]

/-- AddWsClient (hub.go 81-90): the same body as AddTCPClient on the
WebSocket set — but the source takes NO lock. -/
def addWsClientTrace (wsSet : List Nat) (c : Nat) : List HubAction :=
  (if c ∈ wsSet then [HubAction.deleteWs c] else [])
    ++ [HubAction.insertWs c, HubAction.logMsg, HubAction.startListen c]

/-- RemoveTCPClient (hub.go 68-78): Lock; deferred Unlock; conditional
delete; Close; log. -/
def removeTCPClientTrace (tcpSet : List Nat) (c : Nat) : List HubAction :=
  [HubAction.lock]
    ++ (if c ∈ tcpSet then [HubAction.deleteTCP c] else [])
    ++ [HubAction.closeClient c, HubAction.logMsg]
    ++ [HubAction.unlock]

/-- RemoveWsClient (hub.go 93-103): Lock; deferred Unlock; conditional
delete; Close; log. -/
def removeWsClientTrace (wsSet : List Nat) (c : Nat) : List HubAction :=
  [HubAction.lock]
    ++ (if c ∈ wsSet then [HubAction.deleteWs c] else [])
    ++ [HubAction.closeClient c, HubAction.logMsg]
    ++ [HubAction.unlock]

/-- BroadcastToTCPClients (hub.go 189-205): Lock; deferred Unlock; per
client a write and, on failure, two logs, a Close and a delete. -/
def broadcastTCPTrace (tcpSet : List Nat) (fails : Nat → Bool) : List HubAction :=
  [HubAction.lock]
    ++ (tcpSet.flatMap fun c =>
          [HubAction.tcpWrite c]
            ++ (if fails c then
                  [HubAction.logMsg, HubAction.logMsg, HubAction.closeClient c,
                   HubAction.deleteTCP c]
                else []))
    ++ [HubAction.unlock]

/-- BroadcastToWsClients (hub.go 209-228): Lock; deferred Unlock; JSON
marshal (an error returns early, the deferred Unlock still runs); per
client a write and, on failure, two logs, a Close and a delete. -/
def broadcastWsTrace (wsSet : List Nat) (marshalOk : Bool) (fails : Nat → Bool) :
    List HubAction :=
  [HubAction.lock, HubAction.jsonMarshal]
    ++ (if marshalOk then
          wsSet.flatMap fun c =>
            [HubAction.wsWrite c]
              ++ (if fails c then
                    [HubAction.logMsg, HubAction.logMsg, HubAction.closeClient c,
                     HubAction.deleteWs c]
                  else [])
        else [])
    ++ [HubAction.unlock]

/-- Is this action a mutation of one of the Hub's client sets? -/
def HubAction.isMutation : HubAction → Bool
  | HubAction.insertTCP _ => true
  | HubAction.deleteTCP _ => true
  | HubAction.insertWs _ => true
  | HubAction.deleteWs _ => true
  | _ => false

/-- Walk a trace tracking lock depth; every mutation must occur at
positive depth. -/
def guardedFrom (depth : Nat) : List HubAction → Bool
  | [] => true
  | HubAction.lock :: rest => guardedFrom (depth + 1) rest
  | HubAction.unlock :: rest => guardedFrom (depth - 1) rest
  | a :: rest => (!a.isMutation || decide (0 < depth)) && guardedFrom depth rest

/-- Every client-set mutation of the trace happens under the mutex. -/
def mutationsGuarded (tr : List HubAction) : Bool := guardedFrom 0 tr

/-- No lock or unlock action occurs in this trace fragment. -/
def noLockOps : List HubAction → Bool
  | [] => true
  | HubAction.lock :: _ => false
  | HubAction.unlock :: _ => false
  | _ :: rest => noLockOps rest

/-! ### ListenTCP's setup path (hub.go 109-136)

Modelled as a straight-line statement list executed by an interpreter
with Go defer semantics: a `defer` statement evaluates the function
value of the deferred call immediately (Go spec, Defer statements) and
pushes it on a stack; the stack runs (LIFO) when the function returns
or panics.  Evaluating or calling a method on a nil interface panics
(Go spec, Selectors) — so `defer l.Close()` on a nil listener panics
at the defer statement itself, before the call is registered, and
while panicking the already-registered deferred calls still run.
Reaching the end of the statement list stands for "blocked forever in
the accept loop" — the function never returns there, so its deferred
calls do not run. -/

/-- The listener value `net.Listen` produced: nil on error. -/
inductive GoListener where
  | nilListener
  | live
deriving DecidableEq, Repr

/-- Primitive actions of ListenTCP's body and defers. -/
inductive LAction where
  | bindListen
  | logListenError
  | closeErrChan
  | closeListener (l : GoListener)
  | printListening
  | acceptOn (l : GoListener)
deriving DecidableEq, Repr

/-- Does performing this action panic?  Method calls (`Close`,
`Accept`) on a nil listener dereference a nil interface. -/
def LAction.panics : LAction → Bool
  | LAction.closeListener GoListener.nilListener => true
  | LAction.acceptOn GoListener.nilListener => true
  | _ => false

/-- Does the defer STATEMENT itself panic for this deferred call?  A
defer statement evaluates the deferred function value on the spot; for
a method value such as `l.Close` on a nil interface that evaluation
panics immediately, before the call is registered. -/
def LAction.deferEvalPanics : LAction → Bool
  | LAction.closeListener GoListener.nilListener => true
  | _ => false

/-- A statement either performs an action now or defers one. -/
inductive LStmt where
  | act (a : LAction)
  | pushDefer (a : LAction)
deriving DecidableEq, Repr

/-- What a run attempted, and whether it ended in a panic. -/
structure LExec where
  attempted : List LAction
  panicked : Bool
deriving DecidableEq, Repr

/-- Run the deferred actions (already in LIFO order); each is
attempted, and any panic among them leaves the run panicked. -/
def runDefers (defers : List LAction) (acc : List LAction) (p : Bool) : LExec :=
  match defers with
  | [] => { attempted := acc, panicked := p }
  | a :: rest => runDefers rest (acc ++ [a]) (p || a.panics)

/-- Execute a statement list under Go defer/panic semantics.  A defer
statement whose function value evaluation panics (nil interface
receiver) panics right there: the call is never registered and the
already-registered deferred calls unwind.  An empty remainder means the
body is still blocked in its endless loop, so the deferred actions
never run. -/
def runStmts (stmts : List LStmt) (defers : List LAction) (acc : List LAction) : LExec :=
  match stmts with
  | [] => { attempted := acc, panicked := false }
  | LStmt.pushDefer a :: rest =>
    if a.deferEvalPanics then runDefers defers acc true
    else runStmts rest (a :: defers) acc
  | LStmt.act a :: rest =>
    if a.panics then runDefers defers (acc ++ [a]) true
    else runStmts rest defers (acc ++ [a])

/-- ListenTCP's statements, line by line, as a function of whether the
bind succeeded.  On bind failure the source logs and FALLS THROUGH (no
return), so the next statement executed is `defer l.Close()` on the
nil listener — which panics at the defer statement itself; the print
and the accept loop are then never reached. -/
def listenTCPStmts (bindOk : Bool) : List LStmt :=
  let l := if bindOk then GoListener.live else GoListener.nilListener
  [LStmt.pushDefer LAction.closeErrChan]
    ++ [LStmt.act LAction.bindListen]
    ++ (if bindOk then [] else [LStmt.act LAction.logListenError])
    ++ [LStmt.pushDefer (LAction.closeListener l)]
    ++ [LStmt.act LAction.printListening]
    ++ [LStmt.act (LAction.acceptOn l)]

/-- A full run of ListenTCP's setup path. -/
def listenTCPRun (bindOk : Bool) : LExec :=
  runStmts (listenTCPStmts bindOk) [] []

/-! ## Helper lemmas -/

set_option maxHeartbeats 4000000 in
set_option maxRecDepth 10000 in
/-- Go's zero-padding to 3 digits agrees with the three-decimal-digit
rendering for every value below 1000. -/
theorem goPadNat_eq_specPad3 : ∀ n : Nat, n < 1000 → goPadNat 3 n = specPad3 n := by
  decide

/-- A lock-free trace fragment stays guarded at any positive depth. -/
theorem guardedFrom_of_noLock (l : List HubAction) :
    ∀ (d : Nat) (rest : List HubAction), 0 < d → noLockOps l = true →
      guardedFrom d rest = true → guardedFrom d (l ++ rest) = true := by
  induction l with
  | nil => intro d rest _ _ h; simpa using h
  | cons a l ih =>
    intro d rest hd hl h
    have hdec : decide (0 < d) = true := by simpa using hd
    cases a <;> simp_all [guardedFrom, noLockOps, HubAction.isMutation]

/-- `noLockOps` distributes over append. -/
theorem noLockOps_append (l1 l2 : List HubAction) :
    noLockOps (l1 ++ l2) = (noLockOps l1 && noLockOps l2) := by
  induction l1 with
  | nil => simp [noLockOps]
  | cons a l ih => cases a <;> simp [noLockOps, ih]

/-- The per-client fragment of the TCP broadcast loop contains no lock
operation. -/
theorem noLockOps_tcpFlat (set : List Nat) (fails : Nat → Bool) :
    noLockOps (set.flatMap fun c =>
      [HubAction.tcpWrite c]
        ++ (if fails c then
              [HubAction.logMsg, HubAction.logMsg, HubAction.closeClient c,
               HubAction.deleteTCP c]
            else [])) = true := by
  induction set with
  | nil => rfl
  | cons c rest ih =>
    rw [List.flatMap_cons, noLockOps_append, ih]
    by_cases h : fails c <;> simp [noLockOps_append, noLockOps, h]

/-- The per-client fragment of the WebSocket broadcast loop contains no
lock operation. -/
theorem noLockOps_wsFlat (set : List Nat) (fails : Nat → Bool) :
    noLockOps (set.flatMap fun c =>
      [HubAction.wsWrite c]
        ++ (if fails c then
              [HubAction.logMsg, HubAction.logMsg, HubAction.closeClient c,
               HubAction.deleteWs c]
            else [])) = true := by
  induction set with
  | nil => rfl
  | cons c rest ih =>
    rw [List.flatMap_cons, noLockOps_append, ih]
    by_cases h : fails c <;> simp [noLockOps_append, noLockOps, h]

/-- One TCP broadcast pass keeps exactly the clients whose write
succeeds, delivers to exactly those, and closes exactly the failing
ones. -/
theorem broadcastTCPPass_spec (set : List TCPClient) :
    broadcastTCPPass set =
      (set.filter (fun c => !c.failing), set.filter (fun c => !c.failing),
       set.filter (fun c => c.failing)) := by
  induction set with
  | nil => rfl
  | cons c rest ih =>
    by_cases h : c.failing <;> simp [broadcastTCPPass, ih, h]

/-- AddWsClient performs the same set update as AddTCPClient. -/
theorem addWs_eq_addTCP : addWsClientSet = addTCPClientSet := rfl

/-- Adding a client to a duplicate-free set leaves exactly one entry
for it and keeps the set duplicate-free. -/
theorem addTCPClientSet_form (set : List TCPClient) (c : TCPClient) (hnd : set.Nodup) :
    (addTCPClientSet set c).count c = 1 ∧ (addTCPClientSet set c).Nodup := by
  by_cases h : c ∈ set
  · have hne : c ∉ set.erase c := by
      intro hmem
      exact absurd ((List.Nodup.mem_erase_iff hnd).mp hmem).1 (by simp)
    simp only [addTCPClientSet, goMapInsert, h, if_pos, if_neg hne]
    constructor
    · simp [List.count_append, List.count_eq_zero.mpr hne]
    · simp [List.nodup_append, hnd.erase c, hne]
  · have h1 : addTCPClientSet set c = set ++ [c] := by
      simp [addTCPClientSet, goMapInsert, h]
    rw [h1]
    constructor
    · simp [List.count_append, List.count_eq_zero.mpr h]
    · simp [List.nodup_append, hnd, h]

/-- Any sequence of client additions preserves freedom from duplicate
registrations. -/
theorem foldl_addTCP_nodup (ops : List TCPClient) :
    ∀ set : List TCPClient, set.Nodup → (ops.foldl addTCPClientSet set).Nodup := by
  induction ops with
  | nil => intro set h; exact h
  | cons c rest ih =>
    intro set h
    exact ih _ (addTCPClientSet_form set c h).2

/-! ## Claim theorems -/

/-- Claim C1 fails as stated: `getInfo` copies every field of the single
fetched descriptor except its overlap flag, so for a descriptor whose
`azimuthOverlap` is true, construction succeeds but `Info()` differs
from the fetched descriptor. -/
theorem getInfo_overlap_not_seeded_cex :
    (getInfoOk freshProxy [{ name := "rot", azimuthOverlap := true }]).isSome = true ∧
    (getInfoOk freshProxy [{ name := "rot", azimuthOverlap := true }]).map Proxy.Info ≠
      some { name := "rot", azimuthOverlap := true } := by
  constructor
  · rfl
  · decide

/-- Claim C1 (amended): when the info response decodes to exactly one
descriptor, construction succeeds and `Info()` equals the fetched
descriptor in every field EXCEPT the overlap flag, which keeps the
Proxy's zero value (false). -/
theorem getInfo_singleton_seeds_info (host : String) (port : Int) (hh : Bool) (i : Info) :
    (getInfoOk (applyOpts host port hh) [i]).map Proxy.Info =
      some { i with azimuthOverlap := false } := rfl

/-- Claim C2: with two or more descriptors `getInfo` returns the fatal
error before any WebSocket dial, as claimed — but with zero descriptors
the code panics on the out-of-range index `infos[0]` instead of
returning an error (the length guard only checks `> 1`). -/
theorem newUpToDial_zero_panics (r0 : Proxy) :
    newUpToDial r0 [] = NewOutcome.panic ∧
    ∀ infos : List Info, 2 ≤ infos.length →
      (newUpToDial r0 infos).isErrNoDial = true := by
  constructor
  · rfl
  · intro infos h
    have hg : infos.length > 1 := by omega
    simp [newUpToDial, getInfo, hg, NewOutcome.isErrNoDial]

/-- Witness for `newUpToDial_zero_panics` at the empty response and a
concrete two-descriptor response. -/
theorem newUpToDial_zero_panics_witness :
    newUpToDial freshProxy [] = NewOutcome.panic ∧
    (newUpToDial freshProxy [{}, {}]).isErrNoDial = true :=
  ⟨(newUpToDial_zero_panics freshProxy).1,
   (newUpToDial_zero_panics freshProxy).2 [{}, {}] (by decide)⟩

/-- Claim C3 fails as stated: a heading Event that changes azimuth and
azPreset together changes only the azimuth axis (elevation and elPreset
stay equal to the cache) yet fires the registered handler twice, both
times tagged with the Azimuth axis — not "exactly once per changed
axis". -/
theorem heading_two_calls_one_axis_cex :
    ((handleEvent { freshProxy with hasEventHandler := true }
        { name := "heading", status := { azimuth := 1, azPreset := 1 } }).2 =
      [(RotatorEvent.azimuth, { azimuth := 1, azPreset := 1 }),
       (RotatorEvent.azimuth, { azimuth := 1, azPreset := 1 })]) ∧
    freshProxy.elevation = ({ azimuth := 1, azPreset := 1 } : Status).elevation ∧
    freshProxy.elPreset = ({ azimuth := 1, azPreset := 1 } : Status).elPreset := by
  refine ⟨by decide, rfl, rfl⟩

/-- Claim C3 (amended): with a handler registered, a heading Event
updates exactly the changed fields (each judged against the prior
cache) and fires the handler exactly once per changed FIELD — azimuth
and azPreset changes tagged Azimuth, elevation and elPreset changes
tagged Elevation; an Event identical to the cached state updates
nothing and fires no handler call. -/
theorem heading_once_per_changed_field (r : Proxy) (s : Status)
    (hh : r.hasEventHandler = true) :
    (handleHeading r s).1 =
      { r with azimuth := s.azimuth, azPreset := s.azPreset,
               elevation := s.elevation, elPreset := s.elPreset } ∧
    (handleHeading r s).2 =
      (if r.azimuth ≠ s.azimuth then [(RotatorEvent.azimuth, s)] else [])
        ++ (if r.azPreset ≠ s.azPreset then [(RotatorEvent.azimuth, s)] else [])
        ++ (if r.elevation ≠ s.elevation then [(RotatorEvent.elevation, s)] else [])
        ++ (if r.elPreset ≠ s.elPreset then [(RotatorEvent.elevation, s)] else []) ∧
    (r.azimuth = s.azimuth → r.azPreset = s.azPreset → r.elevation = s.elevation →
      r.elPreset = s.elPreset → handleHeading r s = (r, [])) := by
  cases r with
  | mk host port hev name azMin azMax azStop azOv elMin elMax hasAz hasEl az azp el elp =>
  by_cases h1 : az = s.azimuth <;> by_cases h2 : azp = s.azPreset <;>
    by_cases h3 : el = s.elevation <;> by_cases h4 : elp = s.elPreset <;>
    simp_all [handleHeading, Proxy.mk.injEq]

/-- Witness for `heading_once_per_changed_field`: a heading Event with
only a changed azimuth fires the handler exactly once, for the Azimuth
axis. -/
theorem heading_once_per_changed_field_witness :
    ({ freshProxy with hasEventHandler := true } : Proxy).hasEventHandler = true ∧
    (handleHeading { freshProxy with hasEventHandler := true } { azimuth := 1 }).2 =
      [(RotatorEvent.azimuth, { azimuth := 1 })] := by
  refine ⟨rfl, ?_⟩
  have h := (heading_once_per_changed_field { freshProxy with hasEventHandler := true }
    { azimuth := 1 } rfl).2.1
  rw [h]
  decide

/-- Claim C4: AddTCPClient, RemoveTCPClient, RemoveWsClient and both
broadcast passes perform every client-set mutation between Lock and
Unlock — but AddWsClient mutates the WebSocket client set with the
mutex never taken, contradicting the claimed contract. -/
theorem hub_lock_discipline (tcpSet wsSet : List Nat) (c : Nat)
    (fails : Nat → Bool) (marshalOk : Bool) :
    mutationsGuarded (addTCPClientTrace tcpSet c) = true ∧
    mutationsGuarded (removeTCPClientTrace tcpSet c) = true ∧
    mutationsGuarded (removeWsClientTrace wsSet c) = true ∧
    mutationsGuarded (broadcastTCPTrace tcpSet fails) = true ∧
    mutationsGuarded (broadcastWsTrace wsSet marshalOk fails) = true ∧
    mutationsGuarded (addWsClientTrace wsSet c) = false := by
  refine ⟨?_, ?_, ?_, ?_, ?_, ?_⟩
  · by_cases h : c ∈ tcpSet <;>
      simp [addTCPClientTrace, mutationsGuarded, h, guardedFrom, HubAction.isMutation]
  · by_cases h : c ∈ tcpSet <;>
      simp [removeTCPClientTrace, mutationsGuarded, h, guardedFrom, HubAction.isMutation]
  · by_cases h : c ∈ wsSet <;>
      simp [removeWsClientTrace, mutationsGuarded, h, guardedFrom, HubAction.isMutation]
  · have h := guardedFrom_of_noLock _ 1 [HubAction.unlock] (by omega)
      (noLockOps_tcpFlat tcpSet fails) rfl
    simpa [broadcastTCPTrace, mutationsGuarded, guardedFrom, List.append_assoc] using h
  · cases marshalOk
    · simp [broadcastWsTrace, mutationsGuarded, guardedFrom, HubAction.isMutation]
    · have h := guardedFrom_of_noLock _ 1 [HubAction.unlock] (by omega)
        (noLockOps_wsFlat wsSet fails) rfl
      simpa [broadcastWsTrace, mutationsGuarded, guardedFrom, List.append_assoc] using h
  · by_cases h : c ∈ wsSet <;>
      simp [addWsClientTrace, mutationsGuarded, h, guardedFrom, HubAction.isMutation]

/-- Claim C5: for every status whose azimuth and elevation fit in three
decimal digits, the TCP push data is `+0AAA+0EEE\r\n` with AAA and EEE
the zero-padded 3-digit azimuth and elevation. -/
theorem tcpPushData_format (s : Status) (ha0 : 0 ≤ s.azimuth) (ha : s.azimuth ≤ 999)
    (he0 : 0 ≤ s.elevation) (he : s.elevation ≤ 999) :
    tcpPushData s =
      "+0" ++ specPad3 s.azimuth.toNat ++ "+0" ++ specPad3 s.elevation.toNat ++ "\r\n" := by
  have hna : s.azimuth.toNat < 1000 := by omega
  have hne : s.elevation.toNat < 1000 := by omega
  unfold tcpPushData goPadInt
  rw [if_neg (by omega), if_neg (by omega),
    goPadNat_eq_specPad3 _ hna, goPadNat_eq_specPad3 _ hne]

/-- Witness for `tcpPushData_format` at the spec's two example
statuses. -/
theorem tcpPushData_format_witness :
    tcpPushData { azimuth := 5, elevation := 120 } = "+0005+0120\r\n" ∧
    tcpPushData { azimuth := 360, elevation := 0 } = "+0360+0000\r\n" := by
  constructor
  · exact (tcpPushData_format { azimuth := 5, elevation := 120 }
      (by decide) (by decide) (by decide) (by decide)).trans (by decide)
  · exact (tcpPushData_format { azimuth := 360, elevation := 0 }
      (by decide) (by decide) (by decide) (by decide)).trans (by decide)

/-- Claim C6: a failing client is removed, closed and not delivered to;
every non-failing registered client still receives the message; and the
failed client receives nothing in the following pass either. -/
theorem broadcast_failure_isolation (set : List TCPClient) (c : TCPClient)
    (hc : c ∈ set) (hf : c.failing = true) :
    c ∉ (broadcastTCPPass set).1 ∧
    c ∉ (broadcastTCPPass set).2.1 ∧
    c ∈ (broadcastTCPPass set).2.2 ∧
    (∀ d ∈ set, d.failing = false →
      d ∈ (broadcastTCPPass set).2.1 ∧ d ∈ (broadcastTCPPass set).1) ∧
    c ∉ (broadcastTCPPass (broadcastTCPPass set).1).2.1 := by
  simp [broadcastTCPPass_spec, List.mem_filter, hf, hc]
  tauto

/-- Witness for `broadcast_failure_isolation` on a three-client set
whose middle client fails. -/
theorem broadcast_failure_isolation_witness :
    (⟨2, true⟩ : TCPClient) ∉ (broadcastTCPPass [⟨1, false⟩, ⟨2, true⟩, ⟨3, false⟩]).1 ∧
    (⟨2, true⟩ : TCPClient) ∉ (broadcastTCPPass [⟨1, false⟩, ⟨2, true⟩, ⟨3, false⟩]).2.1 ∧
    (⟨2, true⟩ : TCPClient) ∈ (broadcastTCPPass [⟨1, false⟩, ⟨2, true⟩, ⟨3, false⟩]).2.2 ∧
    (∀ d ∈ [(⟨1, false⟩ : TCPClient), ⟨2, true⟩, ⟨3, false⟩], d.failing = false →
      d ∈ (broadcastTCPPass [⟨1, false⟩, ⟨2, true⟩, ⟨3, false⟩]).2.1 ∧
      d ∈ (broadcastTCPPass [⟨1, false⟩, ⟨2, true⟩, ⟨3, false⟩]).1) ∧
    (⟨2, true⟩ : TCPClient) ∉
      (broadcastTCPPass (broadcastTCPPass [⟨1, false⟩, ⟨2, true⟩, ⟨3, false⟩]).1).2.1 :=
  broadcast_failure_isolation [⟨1, false⟩, ⟨2, true⟩, ⟨3, false⟩] ⟨2, true⟩
    (by decide) (by decide)

/-- Claim C7: re-adding a registered client leaves exactly one entry in
the transport's client set (for both transports), and any sequence of
additions keeps every client registered at most once. -/
theorem addClient_dedup (set : List TCPClient) (c : TCPClient) (hnd : set.Nodup) :
    (addTCPClientSet set c).count c = 1 ∧ (addTCPClientSet set c).Nodup ∧
    (addWsClientSet set c).count c = 1 ∧ (addWsClientSet set c).Nodup ∧
    ∀ (ops : List TCPClient) (d : TCPClient),
      (ops.foldl addTCPClientSet []).count d ≤ 1 ∧
      (ops.foldl addWsClientSet []).count d ≤ 1 := by
  refine ⟨(addTCPClientSet_form set c hnd).1, (addTCPClientSet_form set c hnd).2,
          ?_, ?_, ?_⟩
  · rw [addWs_eq_addTCP]; exact (addTCPClientSet_form set c hnd).1
  · rw [addWs_eq_addTCP]; exact (addTCPClientSet_form set c hnd).2
  · intro ops d
    rw [addWs_eq_addTCP]
    have h := foldl_addTCP_nodup ops [] (List.nodup_nil)
    exact ⟨List.nodup_iff_count_le_one.mp h d, List.nodup_iff_count_le_one.mp h d⟩

/-- Witness for `addClient_dedup`: re-adding the sole registered client
leaves exactly one entry. -/
theorem addClient_dedup_witness :
    (addTCPClientSet [⟨1, false⟩] ⟨1, false⟩).count ⟨1, false⟩ = 1 ∧
    (addTCPClientSet [⟨1, false⟩] ⟨1, false⟩).Nodup ∧
    (addWsClientSet [⟨1, false⟩] ⟨1, false⟩).count ⟨1, false⟩ = 1 ∧
    (addWsClientSet [⟨1, false⟩] ⟨1, false⟩).Nodup ∧
    ∀ (ops : List TCPClient) (d : TCPClient),
      (ops.foldl addTCPClientSet []).count d ≤ 1 ∧
      (ops.foldl addWsClientSet []).count d ≤ 1 :=
  addClient_dedup [⟨1, false⟩] ⟨1, false⟩ (by decide)

/-- Claim C8: on a bind failure ListenTCP does close the error channel
exactly once and binds only once, and no accept loop is entered — but,
missing a return after the error log, it falls through to
`defer l.Close()` on the nil listener, whose method-value evaluation
panics at the defer statement itself; the channel close happens only
during the panic unwind and the process crashes instead of delivering
the clean single-shot signal.  On a successful bind no panic occurs. -/
theorem listenTCP_bind_failure_behavior :
    (listenTCPRun false).panicked = true ∧
    (listenTCPRun false).attempted.count LAction.closeErrChan = 1 ∧
    (listenTCPRun false).attempted.count LAction.bindListen = 1 ∧
    LAction.printListening ∉ (listenTCPRun false).attempted ∧
    LAction.acceptOn GoListener.nilListener ∉ (listenTCPRun false).attempted ∧
    (listenTCPRun false).attempted =
      [LAction.bindListen, LAction.logListenError, LAction.closeErrChan] ∧
    (listenTCPRun true).panicked = false ∧
    (listenTCPRun true).attempted =
      [LAction.bindListen, LAction.printListening, LAction.acceptOn GoListener.live] := by
  decide

/-- Claim C9: every Proxy command leaves the Proxy's cached state
untouched, writes exactly the matching Request, and reports the write
outcome synchronously. -/
theorem proxy_commands_frame (r : Proxy) (w : WriteFn) (az el : Int) :
    ((r.SetAzimuth w az).1 = r ∧
      (r.SetAzimuth w az).2 = w { hasAzimuth := true, azimuth := az }) ∧
    ((r.SetElevation w el).1 = r ∧
      (r.SetElevation w el).2 = w { hasElevation := true, elevation := el }) ∧
    ((r.StopAzimuth w).1 = r ∧ (r.StopAzimuth w).2 = w { stopAzimuth := true }) ∧
    ((r.StopElevation w).1 = r ∧ (r.StopElevation w).2 = w { stopElevation := true }) ∧
    ((r.Stop w).1 = r ∧ (r.Stop w).2 = w { stop := true }) :=
  ⟨⟨rfl, rfl⟩, ⟨rfl, rfl⟩, ⟨rfl, rfl⟩, ⟨rfl, rfl⟩, ⟨rfl, rfl⟩⟩

/-- Claim C10: the snapshot returned by Status() agrees with each of
the individual read accessors. -/
theorem proxy_status_accessors_agree (r : Proxy) :
    r.Status.name = r.Name ∧ r.Status.azimuth = r.Azimuth ∧
    r.Status.azPreset = r.AzPreset ∧ r.Status.elevation = r.Elevation ∧
    r.Status.elPreset = r.ElPreset :=
  ⟨rfl, rfl, rfl, rfl, rfl⟩

end RemoteRotator
